import Mathlib

/-!
Verification development for the house-for-sale recommender
(`src/house_for_sale_app.py`).

The embedding models a pandas DataFrame as a list of rows whose cells are
`Option`-valued (a `none` cell is pandas `NaN`), Python strings as Lean
strings (inspected through their character list `String.data`), and Python
numbers as rationals `ℚ`.  Fallible steps of `load_data` (the schema check,
and the `ZeroDivisionError` that the gibberish ratio raises on an empty
title) are modelled with `Except`.
-/

namespace HouseApp

/-- Whitespace test used by the model of Python `str.strip`. -/
def pyIsSpace (c : Char) : Bool :=
  c = ' ' || c = '\t' || c = '\n' || c = '\r'

/-- Model of Python `str.strip`: drop leading and trailing whitespace. -/
def pyStrip (cs : List Char) : List Char :=
  ((cs.dropWhile pyIsSpace).reverse.dropWhile pyIsSpace).reverse

/-- Prepend a character to the first piece of a split (helper for
`splitOnComma`). -/
def consHead (c : Char) : List (List Char) → List (List Char)
  | [] => [[c]]
  | h :: t => (c :: h) :: t

/-- Model of Python `s.split(sep)` for a one-character separator `,`:
splitting at every comma, keeping empty pieces. -/
def splitOnComma : List Char → List (List Char)
  | [] => [[]]
  | c :: cs => if c = ',' then [] :: splitOnComma cs else consHead c (splitOnComma cs)

/-- Digit-string to number (helper for the model of `pd.to_numeric`):
`some` of the value when the (non-empty) character list is all digits. -/
def digitsToNat (cs : List Char) : Option Nat :=
  if cs ≠ [] && cs.all (fun c => c.isDigit) then
    some (cs.foldl (fun n c => 10 * n + (c.toNat - 48)) 0)
  else none

/-- Split a character list at the first `.` (decimal point), if any
(helper for the model of `pd.to_numeric`). -/
def splitOnDot : List Char → List Char × Option (List Char)
  | [] => ([], none)
  | c :: cs =>
    if c = '.' then ([], some cs)
    else
      let r := splitOnDot cs
      (c :: r.1, r.2)

/-- Model of `pd.to_numeric(s, errors = coerce)` on a single string cell:
optional sign, digits, optional fractional digits; anything else coerces
to `none` (pandas `NaN`). -/
def parseNumber (s : String) : Option ℚ :=
  let cs := pyStrip s.data
  let signAndRest : Bool × List Char :=
    match cs with
    | '-' :: r => (true, r)
    | '+' :: r => (false, r)
    | r => (false, r)
  let core : Option ℚ :=
    match splitOnDot signAndRest.2 with
    | (ip, none) => (digitsToNat ip).map (fun n => (n : ℚ))
    | (ip, some fp) =>
      match digitsToNat ip, digitsToNat fp with
      | some a, some b => some ((a : ℚ) + (b : ℚ) / ((10 : ℚ) ^ fp.length))
      | _, _ => none
  core.map (fun q => if signAndRest.1 then -q else q)

/-- Model of line 57's `str.replace` of `,` by the empty string:
remove every comma. -/
def stripCommas (s : String) : String :=
  String.mk (s.data.filter (fun c => ¬ (c = ',')))

/-- Model of line 57: `astype(str)` then comma removal then `pd.to_numeric`
on the `price` cell.  (`astype(str)` sends `NaN` to the string `nan`,
which `pd.to_numeric` sends back to `NaN`, so a null cell stays null.) -/
def parsePrice (cell : Option String) : Option ℚ :=
  match cell with
  | none => none
  | some s => parseNumber (stripCommas s)

/-- Model of lines 58-59: `pd.to_numeric(col, errors = coerce)` on a cell;
a null cell stays null. -/
def parseNumCell (cell : Option String) : Option ℚ :=
  match cell with
  | none => none
  | some s => parseNumber s

/-- Model of line 64's `astype(str)` on a single cell: `NaN` becomes the
literal string `nan`, any other string passes through. -/
def strOfCell (cell : Option String) : String :=
  match cell with
  | none => "nan"
  | some s => s

/-- Model of line 62: derive the city from `location`.
Python: `x.split(',')[-2].strip() if pd.notna(x) and ',' in x else x`.
The negative index `[-2]` is position `length - 2` (the list a split of a
comma-containing string produces has at least two pieces). -/
def derive_city (x : Option String) : Option String :=
  match x with
  | none => none
  | some s =>
    if s.data.contains ',' then
      let parts := splitOnComma s.data
      some (String.mk (pyStrip (parts.getD (parts.length - 2) [])))
    else some s

/-- Count of characters with code point above 127 (line 70's
`sum(1 for c in text if ord(c) > 127)`). -/
def countNonAscii (cs : List Char) : Nat :=
  (cs.filter (fun c => 127 < c.toNat)).length

/-- Model of lines 68-71, `is_gibberish`.  Python computes
`non_ascii_ratio = sum(1 for c in text if ord(c) > 127) / len(text)` and
returns `non_ascii_ratio > 0.5`; on a zero-length string the division
raises `ZeroDivisionError`, modelled as `Except.error ()`.  For a
non-empty string the float comparison `count / len > 0.5` is embedded as
the exact integer comparison `len < 2 * count`, which agrees with it on
every string Python can represent (`0.5` is exact in binary floating
point); the equivalence with the rational ratio formulation is proved in
`is_gibberish_ratio_iff` below. -/
def is_gibberish (text : Option String) : Except Unit Bool :=
  match text with
  | none => .ok false
  | some t =>
    if t.data.length = 0 then .error ()
    else .ok (decide (t.data.length < 2 * countNonAscii t.data))

/-- One raw record of `properties.csv` as `pd.read_csv` delivers it: each
cell a string or null (`NaN`).  The `city` field is the raw `City` column
cell, meaningful only when the table's column list contains `City`. -/
structure RawRow where
  type : Option String
  title : Option String
  location : Option String
  bedroom : Option String
  bathroom : Option String
  size_sqm : Option String
  price : Option String
  contact_person : Option String
  image_link : Option String
  city : Option String
deriving DecidableEq, Repr

/-- The raw DataFrame: its column names and its rows. -/
structure RawTable where
  cols : List String
  rows : List RawRow
deriving DecidableEq, Repr

/-- One row of the cleaned table produced by `load_data`. -/
structure Row where
  type : Option String
  title : Option String
  location : Option String
  bedroom : Option ℚ
  bathroom : Option ℚ
  size_sqm : Option ℚ
  price : Option ℚ
  contact_person : Option String
  image_link : Option String
  city : Option String
  phone_number : Option String
  formatted_price : String
deriving DecidableEq, Repr

/-- Line 52's `required_columns`. -/
def required_columns : List String :=
  ["type", "title", "location", "bedroom", "bathroom", "size_sqm", "price",
   "contact_person", "image_link"]

/-- The fatal outcomes of `load_data`: the missing-column stop of lines
53-55, and the `ZeroDivisionError` of line 70 on an empty title. -/
inductive LoadError
  | schemaError
  | zeroDivisionError
deriving DecidableEq, Repr

/-- The per-row effect of lines 57-64: parse the numeric columns, derive
`City` (when the source table has no `City` column), build `phone_number`
from `contact_person`; `formatted_price` (line 75) is filled in later. -/
def processRow (hasCity : Bool) (r : RawRow) : Row :=
  { type := r.type
    title := r.title
    location := r.location
    bedroom := parseNumCell r.bedroom
    bathroom := parseNumCell r.bathroom
    size_sqm := parseNumCell r.size_sqm
    price := parsePrice r.price
    contact_person := r.contact_person
    image_link := r.image_link
    city := if hasCity then r.city else derive_city r.location
    phone_number := some (strOfCell r.contact_person)
    formatted_price := "" }

/-- Line 65's `dropna(subset = required_columns + [phone_number])`: keep a
row exactly when every required column and `phone_number` is non-null. -/
def keepRow (r : Row) : Bool :=
  r.type.isSome && r.title.isSome && r.location.isSome && r.bedroom.isSome &&
  r.bathroom.isSome && r.size_sqm.isSome && r.price.isSome &&
  r.contact_person.isSome && r.image_link.isSome && r.phone_number.isSome

/-- Line 73's gibberish filter: drop the rows whose title `is_gibberish`;
if `is_gibberish` raises on any row (empty title), the whole load raises. -/
def gibberishFilter : List Row → Except LoadError (List Row)
  | [] => .ok []
  | r :: rs =>
    match is_gibberish r.title with
    | .error _ => .error .zeroDivisionError
    | .ok g =>
      match gibberishFilter rs with
      | .error e => .error e
      | .ok rest => .ok (if g then rest else r :: rest)

/-- Insert a thousands separator every three digits, working over the
reversed digit list (helper for the model of Python format spec `,`). -/
def groupRev : List Char → List Char
  | c1 :: c2 :: c3 :: c4 :: rest => c1 :: c2 :: c3 :: ',' :: groupRev (c4 :: rest)
  | l => l

/-- Model of Python `int(x)` on a rational: truncation toward zero
(`ℤ` division truncates toward zero). -/
def pyInt (q : ℚ) : ℤ :=
  q.num / q.den

/-- Model of line 75's formatted price cell: `EGP` plus the truncated
price with thousands grouping when the price is non-null, `-` otherwise. -/
def formatPrice (price : Option ℚ) : String :=
  match price with
  | none => "-"
  | some q =>
    let n := pyInt q
    let digits := (Nat.repr n.natAbs).data
    let grouped := (groupRev digits.reverse).reverse
    "EGP " ++ (if n < 0 then "-" else "") ++ String.mk grouped

/-- Model of `load_data` (lines 50-77): schema check, per-row parsing and
derivation, `dropna`, gibberish filter, price formatting. -/
def load_data (tbl : RawTable) : Except LoadError (List Row) :=
  if required_columns.all (fun c => tbl.cols.contains c) then
    match gibberishFilter
        ((tbl.rows.map (processRow (tbl.cols.contains "City"))).filter keepRow) with
    | .error e => .error e
    | .ok kept =>
      .ok (kept.map (fun r => { r with formatted_price := formatPrice r.price }))
  else .error .schemaError

/-- The `user_inputs` dictionary of lines 138-147: a type and a city (the
string `Any` meaning no constraint) and six optional numeric bounds
(`none` meaning the Python `None` that skips the corresponding filter). -/
structure UserInputs where
  type : String
  location : String
  bedroom_min : Option ℚ
  bathroom_min : Option ℚ
  size_min : Option ℚ
  size_max : Option ℚ
  price_min : Option ℚ
  price_max : Option ℚ
deriving DecidableEq, Repr

/-- Pandas `==` between a cell and a scalar: `NaN == v` is false. -/
def cellEq (cell : Option String) (v : String) : Bool :=
  match cell with
  | none => false
  | some s => s = v

/-- Pandas `>=` between a cell and a scalar: `NaN >= v` is false. -/
def cellGe (cell : Option ℚ) (v : ℚ) : Bool :=
  match cell with
  | none => false
  | some x => v ≤ x

/-- Pandas `<=` between a cell and a scalar: `NaN <= v` is false. -/
def cellLe (cell : Option ℚ) (v : ℚ) : Bool :=
  match cell with
  | none => false
  | some x => x ≤ v

/-- One conditional filtering step `if b: df = df[pred]`. -/
def condFilter (b : Bool) (p : Row → Bool) (l : List Row) : List Row :=
  if b then l.filter p else l

/-- One optional-bound filtering step
`if bound is not None: df = df[pred bound]`. -/
def optFilter (bound : Option ℚ) (p : ℚ → Row → Bool) (l : List Row) : List Row :=
  match bound with
  | none => l
  | some v => l.filter (p v)

/-- Lines 94-110: the strict filter, the eight constraint predicates
applied in sequence (type, city, bedroom, bathroom, size min, size max,
price min, price max). -/
def strict_filter (df_data : List Row) (u : UserInputs) : List Row :=
  optFilter u.price_max (fun v r => cellLe r.price v)
    (optFilter u.price_min (fun v r => cellGe r.price v)
      (optFilter u.size_max (fun v r => cellLe r.size_sqm v)
        (optFilter u.size_min (fun v r => cellGe r.size_sqm v)
          (optFilter u.bathroom_min (fun v r => cellGe r.bathroom v)
            (optFilter u.bedroom_min (fun v r => cellGe r.bedroom v)
              (condFilter (u.location != "Any") (fun r => cellEq r.city u.location)
                (condFilter (u.type != "Any") (fun r => cellEq r.type u.type)
                  df_data)))))))

/-- Lines 114-118: the relaxed filter, only the type and city predicates
re-applied to the full table. -/
def relaxed_filter (df_data : List Row) (u : UserInputs) : List Row :=
  condFilter (u.location != "Any") (fun r => cellEq r.city u.location)
    (condFilter (u.type != "Any") (fun r => cellEq r.type u.type) df_data)

/-- Comparison on price cells: ascending value, null (`NaN`) last. -/
def optLE (x y : Option ℚ) : Bool :=
  match x, y with
  | some a, some b => a ≤ b
  | some _, none => true
  | none, none => true
  | none, some _ => false

/-- The comparison `sort_values(by = price)` sorts with: ascending price,
null prices last. -/
def priceLE (a b : Row) : Bool :=
  optLE a.price b.price

/-- Model of `sort_values(by = price)`: sort the rows by `priceLE`. -/
def sortByPrice (l : List Row) : List Row :=
  l.mergeSort priceLE

/-- Model of `recommend_houses` (lines 93-121).  The second component
records whether the relaxed fallback fired (line 113's user-visible
warning). -/
def recommend_houses (df_data : List Row) (user_inputs : UserInputs)
    (top_n : Nat) : List Row × Bool :=
  let filtered_df := strict_filter df_data user_inputs
  if filtered_df.isEmpty then
    let relaxed_df := relaxed_filter df_data user_inputs
    ((sortByPrice relaxed_df).take top_n, true)
  else
    ((sortByPrice filtered_df).take top_n, false)

/-! ### Shared lemmas about the filtering pipeline -/

/-- Membership in a conditional filtering step. -/
theorem mem_condFilter {b : Bool} {p : Row → Bool} {l : List Row} {r : Row}
    (h : r ∈ condFilter b p l) : r ∈ l ∧ (b = true → p r = true) := by
  cases b <;> simp [condFilter] at h <;> simp_all

/-- Membership in an optional-bound filtering step. -/
theorem mem_optFilter {c : Option ℚ} {p : ℚ → Row → Bool} {l : List Row} {r : Row}
    (h : r ∈ optFilter c p l) : r ∈ l ∧ ∀ v, c = some v → p v r = true := by
  cases c with
  | none => exact ⟨h, by simp⟩
  | some v =>
    rw [optFilter, List.mem_filter] at h
    exact ⟨h.1, fun w hw => by cases hw; exact h.2⟩

/-- The constraint-satisfaction predicate of the claims: each of the eight
constraints holds, a constraint being skipped when its bound is absent or
its string is `Any`. -/
def satisfies_constraints (r : Row) (u : UserInputs) : Prop :=
  (u.type ≠ "Any" → cellEq r.type u.type = true) ∧
  (u.location ≠ "Any" → cellEq r.city u.location = true) ∧
  (∀ v, u.bedroom_min = some v → cellGe r.bedroom v = true) ∧
  (∀ v, u.bathroom_min = some v → cellGe r.bathroom v = true) ∧
  (∀ v, u.size_min = some v → cellGe r.size_sqm v = true) ∧
  (∀ v, u.size_max = some v → cellLe r.size_sqm v = true) ∧
  (∀ v, u.price_min = some v → cellGe r.price v = true) ∧
  (∀ v, u.price_max = some v → cellLe r.price v = true)

/-- Every row the strict filter keeps comes from the table and satisfies
every supplied constraint. -/
theorem mem_strict_filter {df : List Row} {u : UserInputs} {r : Row}
    (h : r ∈ strict_filter df u) : r ∈ df ∧ satisfies_constraints r u := by
  unfold strict_filter at h
  obtain ⟨h, hpmax⟩ := mem_optFilter h
  obtain ⟨h, hpmin⟩ := mem_optFilter h
  obtain ⟨h, hsmax⟩ := mem_optFilter h
  obtain ⟨h, hsmin⟩ := mem_optFilter h
  obtain ⟨h, hbath⟩ := mem_optFilter h
  obtain ⟨h, hbed⟩ := mem_optFilter h
  obtain ⟨h, hloc⟩ := mem_condFilter h
  obtain ⟨h, hty⟩ := mem_condFilter h
  exact ⟨h, fun hne => hty (by simpa [bne_iff_ne] using hne),
    fun hne => hloc (by simpa [bne_iff_ne] using hne),
    hbed, hbath, hsmin, hsmax, hpmin, hpmax⟩

/-- Every row the relaxed filter keeps comes from the table and satisfies
the type and city constraints. -/
theorem mem_relaxed_filter {df : List Row} {u : UserInputs} {r : Row}
    (h : r ∈ relaxed_filter df u) :
    r ∈ df ∧ (u.type ≠ "Any" → cellEq r.type u.type = true) ∧
      (u.location ≠ "Any" → cellEq r.city u.location = true) := by
  unfold relaxed_filter at h
  obtain ⟨h, hloc⟩ := mem_condFilter h
  obtain ⟨h, hty⟩ := mem_condFilter h
  exact ⟨h, fun hne => hty (by simpa [bne_iff_ne] using hne),
    fun hne => hloc (by simpa [bne_iff_ne] using hne)⟩

/-! ### Shared lemmas about the price sort -/

/-- The cell comparison is transitive. -/
theorem optLE_trans (x y z : Option ℚ) (hab : optLE x y = true)
    (hbc : optLE y z = true) : optLE x z = true := by
  cases x <;> cases y <;> cases z <;> simp_all [optLE]
  exact le_trans hab hbc

/-- The cell comparison is total. -/
theorem optLE_total (x y : Option ℚ) : (optLE x y || optLE y x) = true := by
  cases x <;> cases y <;> simp_all [optLE]
  exact le_total _ _

/-- The sort comparison is transitive. -/
theorem priceLE_trans (a b c : Row) (hab : priceLE a b = true)
    (hbc : priceLE b c = true) : priceLE a c = true :=
  optLE_trans _ _ _ hab hbc

/-- The sort comparison is total. -/
theorem priceLE_total (a b : Row) : (priceLE a b || priceLE b a) = true :=
  optLE_total _ _

/-- The sorted prefix returned after truncation is pairwise ordered by
ascending price. -/
theorem pairwise_take_sortByPrice (l : List Row) (n : Nat) :
    List.Pairwise (fun a b => priceLE a b = true) ((sortByPrice l).take n) :=
  List.Pairwise.sublist (List.take_sublist n _)
    (List.sorted_mergeSort priceLE_trans priceLE_total l)

/-- A row of the truncated sort output is a row of the sort input. -/
theorem mem_of_mem_take_sortByPrice {l : List Row} {n : Nat} {r : Row}
    (h : r ∈ (sortByPrice l).take n) : r ∈ l :=
  (List.mergeSort_perm l priceLE).mem_iff.mp ((List.take_sublist n _).subset h)

/-- Unfolding `recommend_houses` when the strict filter is non-empty. -/
theorem recommend_houses_eq_strict {df : List Row} {u : UserInputs} {n : Nat}
    (h : strict_filter df u ≠ []) :
    recommend_houses df u n = ((sortByPrice (strict_filter df u)).take n, false) := by
  rw [recommend_houses]
  simp [List.isEmpty_eq_false.mpr h]

/-- Unfolding `recommend_houses` when the strict filter is empty. -/
theorem recommend_houses_eq_relaxed {df : List Row} {u : UserInputs} {n : Nat}
    (h : strict_filter df u = []) :
    recommend_houses df u n = ((sortByPrice (relaxed_filter df u)).take n, true) := by
  rw [recommend_houses]
  simp [h]

/-! ### Shared lemmas about the cleaning pipeline -/

/-- A row the gibberish filter returns comes from its input and has a
title that was checked and found not gibberish. -/
theorem gibberishFilter_ok_mem {l res : List Row} (h : gibberishFilter l = .ok res)
    {r : Row} (hr : r ∈ res) : r ∈ l ∧ is_gibberish r.title = .ok false := by
  induction l generalizing res with
  | nil =>
    rw [gibberishFilter] at h
    cases h
    simp at hr
  | cons a as ih =>
    rw [gibberishFilter] at h
    cases hg : is_gibberish a.title with
    | error e => rw [hg] at h; cases h
    | ok g =>
      rw [hg] at h
      cases hrec : gibberishFilter as with
      | error e => rw [hrec] at h; cases h
      | ok rest =>
        rw [hrec] at h
        cases g with
        | true =>
          cases h
          obtain ⟨h1, h2⟩ := ih hrec hr
          exact ⟨List.mem_cons_of_mem a h1, h2⟩
        | false =>
          cases h
          rcases List.mem_cons.mp hr with hra | hrt
          · subst hra
            exact ⟨List.mem_cons_self _ _, hg⟩
          · obtain ⟨h1, h2⟩ := ih hrec hrt
            exact ⟨List.mem_cons_of_mem a h1, h2⟩

/-- A row of the gibberish filter's input whose title checks as not
gibberish is returned. -/
theorem mem_gibberishFilter_ok {l res : List Row} (h : gibberishFilter l = .ok res)
    {r : Row} (hr : r ∈ l) (hok : is_gibberish r.title = .ok false) : r ∈ res := by
  induction l generalizing res with
  | nil => simp at hr
  | cons a as ih =>
    rw [gibberishFilter] at h
    cases hg : is_gibberish a.title with
    | error e => rw [hg] at h; cases h
    | ok g =>
      rw [hg] at h
      cases hrec : gibberishFilter as with
      | error e => rw [hrec] at h; cases h
      | ok rest =>
        rw [hrec] at h
        rcases List.mem_cons.mp hr with hra | hrt
        · subst hra
          rw [hok] at hg
          cases hg
          cases h
          simp
        · have hmem := ih hrec hrt
          cases g <;> cases h <;> simp [hmem]

/-- Membership in the gibberish filter's output, for a row of its input:
kept exactly when its title checks as not gibberish. -/
theorem mem_gibberishFilter_iff {l res : List Row} (h : gibberishFilter l = .ok res)
    {r : Row} (hr : r ∈ l) : r ∈ res ↔ is_gibberish r.title = .ok false :=
  ⟨fun hm => (gibberishFilter_ok_mem h hm).2, fun hok => mem_gibberishFilter_ok h hr hok⟩

/-- Each row of a successfully loaded table originates from a raw row:
it was processed, passed `dropna`, passed the gibberish filter, and got
its formatted price. -/
theorem load_data_row_source {tbl : RawTable} {rows : List Row}
    (h : load_data tbl = .ok rows) {r : Row} (hr : r ∈ rows) :
    ∃ r0, keepRow r0 = true ∧
      (∃ raw ∈ tbl.rows, r0 = processRow (tbl.cols.contains "City") raw) ∧
      r = { r0 with formatted_price := formatPrice r0.price } := by
  rw [load_data] at h
  split at h
  · rename_i hall
    generalize hproc :
      (tbl.rows.map (processRow (tbl.cols.contains "City"))).filter keepRow = processed at h
    cases hgib : gibberishFilter processed with
    | error e => rw [hgib] at h; cases h
    | ok kept =>
      rw [hgib] at h
      cases h
      obtain ⟨r0, hr0, rfl⟩ := List.mem_map.mp hr
      obtain ⟨hmem, _⟩ := gibberishFilter_ok_mem hgib hr0
      rw [← hproc, List.mem_filter] at hmem
      obtain ⟨raw, hraw, hrw⟩ := List.mem_map.mp hmem.1
      exact ⟨r0, hmem.2, ⟨raw, hraw, hrw.symm⟩, rfl⟩
  · cases h

/-! ### Shared lemmas about the gibberish ratio and city split -/

/-- The strict majority comparison on a non-ASCII count: the rational
ratio exceeds one half exactly when twice the count exceeds the length. -/
theorem ratio_gt_half_iff (c len : Nat) (h : 0 < len) :
    ((1 : ℚ) / 2 < (c : ℚ) / (len : ℚ)) ↔ len < 2 * c := by
  rw [div_lt_div_iff₀ (by norm_num) (by exact_mod_cast h), one_mul]
  constructor
  · intro h2
    have : (len : ℚ) < ((2 * c : Nat) : ℚ) := by push_cast; linarith
    exact_mod_cast this
  · intro h2
    have : ((len : Nat) : ℚ) < ((2 * c : Nat) : ℚ) := by exact_mod_cast h2
    push_cast at this
    linarith

/-- On a non-empty title, `is_gibberish` answers true exactly when the
non-ASCII ratio strictly exceeds one half. -/
theorem is_gibberish_ratio_iff (t : String) (h : t.data.length ≠ 0) :
    is_gibberish (some t) = .ok true ↔
      (1 : ℚ) / 2 < (countNonAscii t.data : ℚ) / (t.data.length : ℚ) := by
  rw [is_gibberish, if_neg h, ratio_gt_half_iff _ _ (Nat.pos_of_ne_zero h)]
  constructor
  · intro he
    injection he with he
    exact of_decide_eq_true he
  · intro hlt
    rw [decide_eq_true hlt]

/-- On a non-empty title, `is_gibberish` answers false exactly when the
non-ASCII ratio does not exceed one half. -/
theorem is_gibberish_not_ratio_iff (t : String) (h : t.data.length ≠ 0) :
    is_gibberish (some t) = .ok false ↔
      ¬ ((1 : ℚ) / 2 < (countNonAscii t.data : ℚ) / (t.data.length : ℚ)) := by
  rw [is_gibberish, if_neg h, ratio_gt_half_iff _ _ (Nat.pos_of_ne_zero h)]
  constructor
  · intro he
    injection he with he
    simpa using of_decide_eq_false he
  · intro hlt
    rw [decide_eq_false hlt]

/-- A split never returns an empty list of pieces. -/
theorem splitOnComma_ne_nil (cs : List Char) : splitOnComma cs ≠ [] := by
  cases cs with
  | nil => simp [splitOnComma]
  | cons c cs =>
    rw [splitOnComma]
    split
    · simp
    · cases h : splitOnComma cs <;> simp [consHead]

/-- Splitting a character list that contains a comma yields at least two
pieces. -/
theorem splitOnComma_length_ge_two {cs : List Char} (h : cs.contains ',' = true) :
    2 ≤ (splitOnComma cs).length := by
  induction cs with
  | nil => simp [List.contains] at h
  | cons c cs ih =>
    rw [splitOnComma]
    by_cases hc : c = ','
    · rw [if_pos hc]
      have h1 : 0 < (splitOnComma cs).length :=
        List.length_pos.mpr (splitOnComma_ne_nil cs)
      simp only [List.length_cons]
      omega
    · rw [if_neg hc]
      have hcs : cs.contains ',' = true := by
        rw [List.contains_cons] at h
        rcases Bool.or_eq_true_iff.mp h with h1 | h1
        · exact absurd (beq_iff_eq.mp h1).symm hc
        · exact h1
      have h2 := ih hcs
      cases hsp : splitOnComma cs with
      | nil => exact absurd hsp (splitOnComma_ne_nil cs)
      | cons hd tl =>
        rw [hsp] at h2
        simp only [consHead, List.length_cons] at h2 ⊢
        omega

/-- In a list of at least two elements, the element at position
`length - 2` is the second-to-last element. -/
theorem getD_second_to_last {α : Type} (l : List α) (d : α) (h : 2 ≤ l.length) :
    l.getD (l.length - 2) d = l.reverse.getD 1 d := by
  have h1 : 1 < l.length := by omega
  rw [List.getD_eq_getElem?_getD, List.getD_eq_getElem?_getD,
    List.getElem?_reverse h1]
  congr 2

/-- Comparison predicate: the `dropna` condition restricted to the nine
required columns (the `phone_number` conjunct removed), used to state
that the `phone_number` conjunct of `keepRow` is redundant. -/
def keepRow_required_only (r : Row) : Bool :=
  r.type.isSome && r.title.isSome && r.location.isSome && r.bedroom.isSome &&
  r.bathroom.isSome && r.size_sqm.isSome && r.price.isSome &&
  r.contact_person.isSome && r.image_link.isSome

/-- Sample cleaned row used by the concrete instantiations below. -/
def mkRow (ty ti : String) (bed bath size price : ℚ) (city : String) : Row :=
  { type := some ty, title := some ti, location := some "L",
    bedroom := some bed, bathroom := some bath, size_sqm := some size,
    price := some price, contact_person := some "c", image_link := some "i",
    city := some city, phone_number := some "c", formatted_price := "" }

/-! ### The claims -/

/-- C1: when the strict filter (all supplied constraints ANDed) is
non-empty, `recommend_houses` signals no relaxation and returns only rows
of the table satisfying every supplied constraint (type and city equality
unless `Any`, bedroom and bathroom at least their minima, size and price
within their ranges, each skipped when absent), sorted ascending by
price, with length at most the limit. -/
theorem recommend_strict_matching_sorted_bounded
    (df : List Row) (u : UserInputs) (n : Nat)
    (h : strict_filter df u ≠ []) :
    (recommend_houses df u n).2 = false ∧
    (recommend_houses df u n).1.length ≤ n ∧
    List.Pairwise (fun a b => priceLE a b = true) (recommend_houses df u n).1 ∧
    ∀ r ∈ (recommend_houses df u n).1, r ∈ df ∧ satisfies_constraints r u := by
  rw [recommend_houses_eq_strict h]
  exact ⟨rfl, List.length_take_le n _, pairwise_take_sortByPrice _ n,
    fun r hr => mem_strict_filter (mem_of_mem_take_sortByPrice hr)⟩

def w1df : List Row :=
  [mkRow "Villa" "t2" 4 3 300 400 "Giza", mkRow "Apartment" "t1" 3 2 120 150 "Cairo"]

def w1u : UserInputs :=
  { type := "Apartment", location := "Any", bedroom_min := some 2,
    bathroom_min := none, size_min := none, size_max := none,
    price_min := none, price_max := some 200 }

/-- Concrete instantiation of the strict-path theorem. -/
theorem recommend_strict_matching_sorted_bounded_witness :
    strict_filter w1df w1u ≠ [] ∧
    ((recommend_houses w1df w1u 5).2 = false ∧
     (recommend_houses w1df w1u 5).1.length ≤ 5 ∧
     List.Pairwise (fun a b => priceLE a b = true) (recommend_houses w1df w1u 5).1 ∧
     ∀ r ∈ (recommend_houses w1df w1u 5).1, r ∈ w1df ∧ satisfies_constraints r w1u) :=
  ⟨by decide, recommend_strict_matching_sorted_bounded w1df w1u 5 (by decide)⟩

/-- C2: when the strict filter is empty, `recommend_houses` re-applies
only the type and city predicates to the full table, sorts ascending by
price, truncates to the limit, and signals the relaxation; when even the
relaxed set is empty it returns an empty result, with no error and no
further fallback. -/
theorem recommend_relaxed_fallback
    (df : List Row) (u : UserInputs) (n : Nat)
    (h : strict_filter df u = []) :
    recommend_houses df u n = ((sortByPrice (relaxed_filter df u)).take n, true) ∧
    (recommend_houses df u n).1.length ≤ n ∧
    List.Pairwise (fun a b => priceLE a b = true) (recommend_houses df u n).1 ∧
    (∀ r ∈ (recommend_houses df u n).1, r ∈ df ∧
      (u.type ≠ "Any" → cellEq r.type u.type = true) ∧
      (u.location ≠ "Any" → cellEq r.city u.location = true)) ∧
    (relaxed_filter df u = [] → (recommend_houses df u n).1 = []) := by
  rw [recommend_houses_eq_relaxed h]
  refine ⟨rfl, List.length_take_le n _, pairwise_take_sortByPrice _ n,
    fun r hr => mem_relaxed_filter (mem_of_mem_take_sortByPrice hr), ?_⟩
  intro hrel
  rw [hrel]
  simp [sortByPrice]

def w2df : List Row :=
  [mkRow "Apartment" "t1" 3 2 120 150 "Cairo"]

def w2u : UserInputs :=
  { type := "Apartment", location := "Any", bedroom_min := some 100,
    bathroom_min := none, size_min := none, size_max := none,
    price_min := none, price_max := none }

/-- Concrete instantiation of the relaxed-path theorem. -/
theorem recommend_relaxed_fallback_witness :
    strict_filter w2df w2u = [] ∧
    (recommend_houses w2df w2u 5 =
      ((sortByPrice (relaxed_filter w2df w2u)).take 5, true) ∧
     (recommend_houses w2df w2u 5).1.length ≤ 5 ∧
     List.Pairwise (fun a b => priceLE a b = true) (recommend_houses w2df w2u 5).1 ∧
     (∀ r ∈ (recommend_houses w2df w2u 5).1, r ∈ w2df ∧
       (w2u.type ≠ "Any" → cellEq r.type w2u.type = true) ∧
       (w2u.location ≠ "Any" → cellEq r.city w2u.location = true)) ∧
     (relaxed_filter w2df w2u = [] → (recommend_houses w2df w2u 5).1 = [])) :=
  ⟨by decide, recommend_relaxed_fallback w2df w2u 5 (by decide)⟩

/-- C3: the gibberish check is not guarded against zero-length titles:
on the empty-string title the source divides by `len(text) = 0`
(`pd.isna` does not catch the empty string), raising `ZeroDivisionError`
instead of classifying the title as not gibberish and keeping the row;
a load whose cleaned rows include an empty title therefore fails. -/
theorem empty_title_division_error :
    is_gibberish (some "") = .error () ∧
    load_data { cols := required_columns
                rows := [{ type := some "Apartment", title := some "",
                           location := some "Cairo", bedroom := some "3",
                           bathroom := some "2", size_sqm := some "120",
                           price := some "100", contact_person := some "p",
                           image_link := some "i", city := none }] } =
      .error .zeroDivisionError :=
  ⟨rfl, rfl⟩

/-- C4: every row of a successfully loaded table has all nine required
fields non-null; in particular the four numeric fields `price`,
`bedroom`, `bathroom`, `size_sqm` hold parsed numbers (rows whose
parsing yielded null were dropped). -/
theorem load_data_rows_required_nonnull
    (tbl : RawTable) (rows : List Row) (h : load_data tbl = .ok rows) :
    ∀ r ∈ rows, r.type.isSome ∧ r.title.isSome ∧ r.location.isSome ∧
      r.bedroom.isSome ∧ r.bathroom.isSome ∧ r.size_sqm.isSome ∧
      r.price.isSome ∧ r.contact_person.isSome ∧ r.image_link.isSome := by
  intro r hr
  obtain ⟨r0, hk, hsrc, rfl⟩ := load_data_row_source h hr
  simp only [keepRow, Bool.and_eq_true] at hk
  dsimp only
  tauto

def w4tbl : RawTable :=
  { cols := required_columns
    rows := [{ type := some "Apartment", title := some "Nice flat",
               location := some "Maadi, Cairo, Egypt", bedroom := some "3",
               bathroom := some "2", size_sqm := some "120",
               price := some "1,250", contact_person := some "201000",
               image_link := some "http", city := none }] }

def w4rows : List Row :=
  [{ type := some "Apartment", title := some "Nice flat",
     location := some "Maadi, Cairo, Egypt", bedroom := some 3,
     bathroom := some 2, size_sqm := some 120, price := some 1250,
     contact_person := some "201000", image_link := some "http",
     city := some "Cairo", phone_number := some "201000",
     formatted_price := "EGP 1,250" }]

/-- Concrete instantiation of the required-fields invariant. -/
theorem load_data_rows_required_nonnull_witness :
    load_data w4tbl = .ok w4rows ∧
    ∀ r ∈ w4rows, r.type.isSome ∧ r.title.isSome ∧ r.location.isSome ∧
      r.bedroom.isSome ∧ r.bathroom.isSome ∧ r.size_sqm.isSome ∧
      r.price.isSome ∧ r.contact_person.isSome ∧ r.image_link.isSome :=
  ⟨rfl, load_data_rows_required_nonnull w4tbl w4rows rfl⟩

/-- C5: the derived city is the second-to-last comma-separated segment of
the location, trimmed of surrounding whitespace, when the location
contains a comma, and the location unchanged otherwise; in particular the
location `Maadi, Cairo, Egypt` yields the city `Cairo` and the location
`Cairo` yields the city `Cairo`. -/
theorem derive_city_second_to_last (s : String) :
    (s.data.contains ',' = true →
      derive_city (some s) =
        some (String.mk (pyStrip ((splitOnComma s.data).reverse.getD 1 [])))) ∧
    (s.data.contains ',' = false → derive_city (some s) = some s) ∧
    derive_city (some "Maadi, Cairo, Egypt") = some "Cairo" ∧
    derive_city (some "Cairo") = some "Cairo" := by
  refine ⟨?_, ?_, by decide, by decide⟩
  · intro hc
    rw [derive_city, if_pos hc]
    dsimp only
    rw [getD_second_to_last _ _ (splitOnComma_length_ge_two hc)]
  · intro hc
    have hne : ¬ (s.data.contains ',' = true) := by rw [hc]; simp
    rw [derive_city, if_neg hne]

/-- Concrete instantiation of the city-derivation theorem. -/
theorem derive_city_second_to_last_witness :
    "Maadi, Cairo, Egypt".data.contains ',' = true ∧
    derive_city (some "Maadi, Cairo, Egypt") =
      some (String.mk (pyStrip
        ((splitOnComma "Maadi, Cairo, Egypt".data).reverse.getD 1 []))) :=
  ⟨by decide, (derive_city_second_to_last "Maadi, Cairo, Egypt").1 (by decide)⟩

/-- C6: a required column missing from the source makes `load_data` fail
with the schema error before any parsing, cleaning, or filtering: the
error is returned in place of any table, so no partial result exists. -/
theorem load_data_missing_column_schema_error
    (tbl : RawTable) (c : String) (hc : c ∈ required_columns)
    (hm : tbl.cols.contains c = false) :
    load_data tbl = .error .schemaError := by
  have hne : ¬ (required_columns.all (fun c2 => tbl.cols.contains c2) = true) := by
    intro hall
    have h2 := List.all_eq_true.mp hall c hc
    rw [hm] at h2
    cases h2
  rw [load_data, if_neg hne]

def w6tbl : RawTable :=
  { cols := ["type", "title", "location"]
    rows := [{ type := some "Apartment", title := some "",
               location := some "Cairo", bedroom := some "3",
               bathroom := some "2", size_sqm := some "120",
               price := some "100", contact_person := some "p",
               image_link := some "i", city := none }] }

/-- Concrete instantiation of the schema-error theorem. -/
theorem load_data_missing_column_schema_error_witness :
    "price" ∈ required_columns ∧ w6tbl.cols.contains "price" = false ∧
    load_data w6tbl = .error .schemaError :=
  ⟨by decide, by decide,
    load_data_missing_column_schema_error w6tbl "price" (by decide) (by decide)⟩

/-- C7: a row with a non-empty title is dropped by the cleaning exactly
when the fraction of title characters with code point above 127 strictly
exceeds one half; a 10-character all-ASCII title checks as kept, a title
with 6 of its 10 characters non-ASCII checks as dropped. -/
theorem gibberish_drop_iff_majority_nonascii (t : String) (h : t ≠ "") :
    (is_gibberish (some t) = .ok true ↔
      (1 : ℚ) / 2 < (countNonAscii t.data : ℚ) / (t.data.length : ℚ)) ∧
    (∀ (l res : List Row) (r : Row), gibberishFilter l = .ok res → r ∈ l →
      r.title = some t →
      (r ∈ res ↔
        ¬ ((1 : ℚ) / 2 < (countNonAscii t.data : ℚ) / (t.data.length : ℚ)))) ∧
    is_gibberish (some "ABCDEFGHIJ") = .ok false ∧
    is_gibberish (some "ééééééABCD") = .ok true := by
  have hlen : t.data.length ≠ 0 :=
    fun h0 => h (String.ext_iff.mpr ((List.length_eq_zero.mp h0).trans rfl))
  refine ⟨is_gibberish_ratio_iff t hlen, ?_, rfl, rfl⟩
  intro l res r hgf hrl hti
  rw [mem_gibberishFilter_iff hgf hrl, hti, is_gibberish_not_ratio_iff t hlen]

/-- Concrete instantiation of the gibberish-threshold theorem. -/
theorem gibberish_drop_iff_majority_nonascii_witness :
    ("ééééééABCD" : String) ≠ "" ∧
    (is_gibberish (some "ééééééABCD") = .ok true ↔
      (1 : ℚ) / 2 <
        (countNonAscii ("ééééééABCD" : String).data : ℚ) /
          (("ééééééABCD" : String).data.length : ℚ)) :=
  ⟨by decide, (gibberish_drop_iff_majority_nonascii "ééééééABCD" (by decide)).1⟩

/-- C9: `recommend_houses` is a function of the table, the constraints
and the limit alone: identical inputs yield identical ordered output. -/
theorem recommend_houses_deterministic
    (df1 df2 : List Row) (u1 u2 : UserInputs) (n : Nat)
    (h1 : df1 = df2) (h2 : u1 = u2) :
    recommend_houses df1 u1 n = recommend_houses df2 u2 n := by
  rw [h1, h2]

def w9df : List Row :=
  [mkRow "Apartment" "t1" 3 2 120 150 "Cairo"]

def w9u : UserInputs :=
  { type := "Any", location := "Any", bedroom_min := none,
    bathroom_min := none, size_min := none, size_max := none,
    price_min := none, price_max := none }

/-- Concrete instantiation of the determinism theorem. -/
theorem recommend_houses_deterministic_witness :
    recommend_houses w9df w9u 5 = recommend_houses w9df w9u 5 :=
  recommend_houses_deterministic w9df w9df w9u w9u 5 rfl rfl

/-- C10: `phone_number` is non-null on every cleaned row and its nullness
never causes a row drop: it is `astype(str)` of `contact_person`, which
maps a null cell to the literal string `nan`, so only a null
`contact_person` itself (a required column) can drop the row — the
`phone_number` conjunct of the `dropna` condition is redundant. -/
theorem phone_number_never_null
    (tbl : RawTable) (rows : List Row) (h : load_data tbl = .ok rows) :
    (∀ r ∈ rows, r.phone_number.isSome) ∧
    (∀ (hasCity : Bool) (raw : RawRow),
      (processRow hasCity raw).phone_number = some (strOfCell raw.contact_person)) ∧
    strOfCell none = "nan" ∧
    (∀ r : Row, r.phone_number.isSome → keepRow r = keepRow_required_only r) := by
  refine ⟨?_, fun hc raw => rfl, rfl, ?_⟩
  · intro r hr
    obtain ⟨r0, hk, ⟨raw, hraw, rfl⟩, rfl⟩ := load_data_row_source h hr
    dsimp only [processRow]
    simp
  · intro r hp
    simp only [keepRow, keepRow_required_only, hp, Bool.and_true]

def w10tbl : RawTable :=
  { cols := required_columns
    rows := [{ type := some "Villa", title := some "Big house",
               location := some "Giza", bedroom := some "4",
               bathroom := some "3", size_sqm := some "300",
               price := some "4,000", contact_person := some "20100",
               image_link := some "img", city := none }] }

def w10rows : List Row :=
  [{ type := some "Villa", title := some "Big house",
     location := some "Giza", bedroom := some 4,
     bathroom := some 3, size_sqm := some 300, price := some 4000,
     contact_person := some "20100", image_link := some "img",
     city := some "Giza", phone_number := some "20100",
     formatted_price := "EGP 4,000" }]

/-- Concrete instantiation of the phone-number invariant. -/
theorem phone_number_never_null_witness :
    load_data w10tbl = .ok w10rows ∧
    ((∀ r ∈ w10rows, r.phone_number.isSome) ∧
     (∀ (hasCity : Bool) (raw : RawRow),
       (processRow hasCity raw).phone_number = some (strOfCell raw.contact_person)) ∧
     strOfCell none = "nan" ∧
     (∀ r : Row, r.phone_number.isSome → keepRow r = keepRow_required_only r)) :=
  ⟨rfl, phone_number_never_null w10tbl w10rows rfl⟩

end HouseApp
